import Mathlib

/-!
Verification of the weather-dashboard backend (controllers/weatherController.ts,
services/weatherService.ts, routes/weatherRoutes.ts) as a shallow embedding.

Modelling conventions:
* JS numbers are modelled as rationals (`ℚ`); `Math.random()` draws are explicit
  `ℚ` parameters assumed to lie in `[0, 1)` where a claim needs it.
* Instants (`new Date()`, `Date.now()`) are modelled as an abstract integer clock
  `now : ℤ`; `toISOString` is modelled by the instant itself (it is injective on
  distinct instants, which is all the claims use).
* Fallible effects (`axios` calls, a throwing `cacheService`) are modelled by
  explicit outcome parameters; a thrown `TypeError` from dereferencing a missing
  field of the upstream JSON is modelled by `Option` (`none` = the transform threw).
* Each controller method returns an `OpTrace` recording the HTTP-level result,
  the cache state after the request, the attempted cache write, and how many
  cache reads, weather-service calls and upstream HTTP calls the request made.
-/

/-- `utils/ApiError.ts`: an operational error carrying an HTTP status code and a
message (the `isOperational`/`stack` bookkeeping fields play no role in any claim). -/
structure ApiError where
  statusCode : Nat
  message : String
deriving DecidableEq, Repr

/-- `types/weather.ts` `WeatherData.coordinates`. -/
structure Coordinates where
  lat : ℚ
  lon : ℚ
deriving DecidableEq, Repr

/-- `types/weather.ts` `WeatherData`: the normalized current-weather payload. -/
structure WeatherData where
  location : String
  country : String
  temperature : ℚ
  feelsLike : ℚ
  humidity : ℚ
  pressure : ℚ
  windSpeed : ℚ
  windDirection : ℚ
  visibility : ℚ
  uvIndex : Nat
  condition : String
  description : String
  icon : String
  timestamp : ℤ
  coordinates : Coordinates
deriving DecidableEq, Repr

/-- `types/weather.ts` `ForecastData`: one normalized forecast entry. -/
structure ForecastData where
  date : String
  temperature : ℚ
  feelsLike : ℚ
  humidity : ℚ
  pressure : ℚ
  windSpeed : ℚ
  condition : String
  description : String
  icon : String
  precipitationProbability : ℚ
deriving DecidableEq, Repr

/-- `types/weather.ts` `HistoricalData`: one mock historical entry. `date` is the
day index (an instant `i` days before the current date is `today - i`). -/
structure HistoricalData where
  date : ℤ
  temperature : ℚ
  humidity : ℚ
  windSpeed : ℚ
  condition : String
  description : String
deriving DecidableEq, Repr

/-- `types/weather.ts` `WeatherAlert` (severity modelled as its string value). -/
structure WeatherAlert where
  id : String
  title : String
  description : String
  severity : String
  startTime : ℤ
  endTime : ℤ
  area : String
deriving DecidableEq, Repr

/-- `data.sys` of the raw OpenWeather current-weather JSON. -/
structure RawSys where
  country : String
deriving DecidableEq, Repr

/-- `data.main` of the raw OpenWeather JSON. -/
structure RawMain where
  temp : ℚ
  feels_like : ℚ
  humidity : ℚ
  pressure : ℚ
deriving DecidableEq, Repr

/-- `data.wind` of the raw OpenWeather JSON. -/
structure RawWind where
  speed : ℚ
  deg : ℚ
deriving DecidableEq, Repr

/-- One element of `data.weather` of the raw OpenWeather JSON. -/
structure RawCond where
  main : String
  description : String
  icon : String
deriving DecidableEq, Repr

/-- `data.coord` of the raw OpenWeather JSON. -/
structure RawCoord where
  lat : ℚ
  lon : ℚ
deriving DecidableEq, Repr

/-- The raw upstream current-weather JSON. The sub-objects that
`transformWeatherData` dereferences (`data.sys.country`, `data.main.temp`, …)
are `Option`s: a missing sub-object makes the dereference throw a `TypeError`
(a malformed upstream payload). -/
structure RawWeather where
  name : String
  sys : Option RawSys
  main : Option RawMain
  wind : Option RawWind
  visibility : ℚ
  weather : List RawCond
  coord : Option RawCoord
deriving DecidableEq, Repr

/-- One element of `data.list` of the raw OpenWeather forecast JSON. -/
structure RawForecastItem where
  dt_txt : String
  main : RawMain
  wind : RawWind
  weather0 : RawCond
  pop : ℚ
deriving DecidableEq, Repr

/-- The raw upstream forecast JSON; a missing `data.list` makes
`transformForecastData` throw. -/
structure RawForecast where
  list : Option (List RawForecastItem)
deriving DecidableEq, Repr

/-- Outcome of an `axios.get` call against the upstream weather provider:
a 2xx body, an HTTP error with a response status (`error.response.status`),
or a timeout / transport failure with no response. -/
inductive AxiosResult (α : Type) where
  | ok (data : α)
  | httpErr (status : Nat)
  | netErr
deriving DecidableEq, Repr

/-- Digit list to number, most significant first (JS radix-10 parsing). -/
def natOfDigits (ds : List Char) : Nat :=
  ds.foldl (fun a c => 10 * a + (c.toNat - 48)) 0

/-- JS `parseInt(s)` (radix 10), on the fragment of inputs the app meets:
skip spaces, optional sign, then the longest leading digit run; no digits means
`NaN`, modelled as `none`.  Trailing garbage is ignored (`parseInt("3.9") = 3`). -/
def jsParseInt (s : String) : Option ℤ :=
  let cs := s.data.dropWhile (fun c => c = ' ')
  let signAndRest : ℤ × List Char :=
    match cs with
    | '-' :: r => (-1, r)
    | '+' :: r => (1, r)
    | r => (1, r)
  let ds := signAndRest.2.takeWhile Char.isDigit
  if ds.isEmpty then none else some (signAndRest.1 * natOfDigits ds)

/-- JS `parseFloat(s)` on the strict decimal grammar (optional sign, digits,
optional fraction; no exponent — the route never receives one): `none` = `NaN`. -/
def jsParseFloat (s : String) : Option ℚ :=
  let signAndRest : ℚ × List Char :=
    match s.data with
    | '-' :: r => (-1, r)
    | '+' :: r => (1, r)
    | r => (1, r)
  let ip := signAndRest.2.takeWhile Char.isDigit
  let rest := signAndRest.2.dropWhile Char.isDigit
  match rest with
  | [] => if ip.isEmpty then none else some (signAndRest.1 * natOfDigits ip)
  | '.' :: fr =>
    let fp := fr.takeWhile Char.isDigit
    let rest3 := fr.dropWhile Char.isDigit
    if rest3.isEmpty && !(ip.isEmpty && fp.isEmpty) then
      some (signAndRest.1 * ((natOfDigits ip : ℚ) + (natOfDigits fp : ℚ) / 10 ^ fp.length))
    else none
  | _ => none

/-- `express-validator` `param(..).isFloat()` with no range options, as used by
the coordinate routes: accepts exactly the float-syntax strings. -/
def isFloatStr (s : String) : Bool :=
  (jsParseFloat s).isSome

/-- A JS number that may be `NaN` (`none`), as produced by `parseFloat`. -/
def JsNum : Type := Option ℚ
deriving instance DecidableEq, Repr for JsNum

/-- JS template-literal rendering `${n}` of a possibly-NaN number. -/
def jsNumToString (n : JsNum) : String :=
  match n with
  | none => "NaN"
  | some q => toString q

/-- The controller expression `parseInt(req.query.days as string) || 7`:
an absent parameter stringifies to `"undefined"` (`NaN`), and `NaN || 7` and
`0 || 7` are `7`, while any other parsed value is used as-is. -/
def parseIntOr7 (daysQuery : Option String) : ℤ :=
  match daysQuery.bind jsParseInt with
  | none => 7
  | some d => if d = 0 then 7 else d

/-- A value stored in the cache: the controllers cache the current-weather
payload, a forecast list, or a historical list (alerts are never cached). -/
inductive Payload where
  | weather (w : WeatherData)
  | forecastL (l : List ForecastData)
  | historyL (l : List HistoricalData)
deriving DecidableEq, Repr

/-- Modelled from the spec: `services/cacheService.ts` is not under `src/`.
Spec section 3 CacheEntry: a mapping from a cache key to a
(payload, insertion-time, TTL) triple. -/
def CacheStore : Type := String → Option (Payload × ℤ × ℕ)

/-- Modelled from the spec: `cacheService.get` of the missing
`services/cacheService.ts`. Spec section 3: an entry is valid if and only if
current time < insertion-time + TTL; expired entries are logically absent. -/
def cacheGet (now : ℤ) (store : CacheStore) (key : String) : Option Payload :=
  match store key with
  | some (p, insertedAt, ttl) => if now < insertedAt + ttl then some p else none
  | none => none

/-- Modelled from the spec: `cacheService.set` of the missing
`services/cacheService.ts`. Spec section 3: a successful write records the
payload with its insertion time and TTL under the key, overwriting. -/
def cacheSet (now : ℤ) (store : CacheStore) (key : String) (p : Payload) (ttl : ℕ) :
    CacheStore :=
  fun k => if k = key then some (p, now, ttl) else store k

/-- The per-request environment: the cache contents, the clock, and whether the
cache collaborator throws on `get` / on `set` (claim C2's fault model). -/
structure Env where
  cache : CacheStore
  now : ℤ
  getFault : Bool
  setFault : Bool

/-- What one controller-level request did: its HTTP-level outcome, the cache
after it, the write it performed (key, payload, TTL), and how many cache reads,
weather-service calls and upstream HTTP calls it made. -/
structure OpTrace (α : Type) where
  result : Except ApiError α
  cacheAfter : CacheStore
  written : Option (String × Payload × ℕ)
  cacheReads : Nat
  serviceCalls : Nat
  httpCalls : Nat

/-- `weatherService.transformWeatherData`.  Dereferencing a missing sub-object
(`data.sys.country` with no `sys`, etc.) throws a `TypeError`, modelled as
`none`.  `rand` is the `Math.random()` draw behind the mock `uvIndex`; `now` is
the clock instant behind `timestamp`. -/
def WeatherService.transformWeatherData (data : RawWeather) (rand : ℚ) (now : ℤ) :
    Option WeatherData :=
  match data.sys, data.main, data.wind, data.weather.head?, data.coord with
  | some sys, some main, some wind, some w0, some coord =>
    some
      { location := data.name
        country := sys.country
        temperature := main.temp
        feelsLike := main.feels_like
        humidity := main.humidity
        pressure := main.pressure
        windSpeed := wind.speed * 3.6
        windDirection := wind.deg
        visibility := data.visibility / 1000
        uvIndex := Int.toNat ⌊rand * 11⌋
        condition := w0.main.toLower
        description := w0.description
        icon := w0.icon
        timestamp := now
        coordinates := { lat := coord.lat, lon := coord.lon } }
  | _, _, _, _, _ => none

/-- `weatherService.transformForecastData`; a missing `data.list` throws. -/
def WeatherService.transformForecastData (data : RawForecast) :
    Option (List ForecastData) :=
  data.list.map (List.map (fun item =>
    { date := item.dt_txt
      temperature := item.main.temp
      feelsLike := item.main.feels_like
      humidity := item.main.humidity
      pressure := item.main.pressure
      windSpeed := item.wind.speed * 3.6
      condition := item.weather0.main.toLower
      description := item.weather0.description
      icon := item.weather0.icon
      precipitationProbability := item.pop * 100 }))

/-- `weatherService.getCurrentWeather(location)`: on a 2xx response transform it
(a transform `TypeError` lands in the catch with `isAxiosError = false`, hence
the generic 500); a 404 axios error becomes `ApiError(404)`, every other axios
error becomes `ApiError(500, "Weather service unavailable")`. -/
def WeatherService.getCurrentWeather (upstream : AxiosResult RawWeather)
    (rand : ℚ) (now : ℤ) : Except ApiError WeatherData :=
  match upstream with
  | .ok data =>
    match WeatherService.transformWeatherData data rand now with
    | some w => .ok w
    | none => .error ⟨500, "Weather service unavailable"⟩
  | .httpErr status =>
    if status = 404 then .error ⟨404, "Location not found"⟩
    else .error ⟨500, "Weather service unavailable"⟩
  | .netErr => .error ⟨500, "Weather service unavailable"⟩

/-- `weatherService.getCurrentWeatherByCoords(lat, lon)`: same shape but its
catch has no 404 case — every failure becomes the generic 500. -/
def WeatherService.getCurrentWeatherByCoords (lat lon : JsNum)
    (upstream : AxiosResult RawWeather) (rand : ℚ) (now : ℤ) :
    Except ApiError WeatherData :=
  match lat, lon, upstream with
  | _, _, .ok data =>
    match WeatherService.transformWeatherData data rand now with
    | some w => .ok w
    | none => .error ⟨500, "Weather service unavailable"⟩
  | _, _, _ => .error ⟨500, "Weather service unavailable"⟩

/-- `weatherService.getForecast(location)`. -/
def WeatherService.getForecast (upstream : AxiosResult RawForecast) :
    Except ApiError (List ForecastData) :=
  match upstream with
  | .ok data =>
    match WeatherService.transformForecastData data with
    | some l => .ok l
    | none => .error ⟨500, "Weather service unavailable"⟩
  | .httpErr status =>
    if status = 404 then .error ⟨404, "Location not found"⟩
    else .error ⟨500, "Weather service unavailable"⟩
  | .netErr => .error ⟨500, "Weather service unavailable"⟩

/-- `weatherService.getForecastByCoords(lat, lon)`: no 404 case in its catch. -/
def WeatherService.getForecastByCoords (lat lon : JsNum)
    (upstream : AxiosResult RawForecast) : Except ApiError (List ForecastData) :=
  match lat, lon, upstream with
  | _, _, .ok data =>
    match WeatherService.transformForecastData data with
    | some l => .ok l
    | none => .error ⟨500, "Weather service unavailable"⟩
  | _, _, _ => .error ⟨500, "Weather service unavailable"⟩

/-- The `['clear', 'clouds', 'rain'][Math.floor(Math.random() * 3)]` pick. -/
def condPick (r : ℚ) : String :=
  (["clear", "clouds", "rain"]).getD (Int.toNat ⌊r * 3⌋) ""

/-- `weatherService.getHistoricalWeather(location, days)`: purely local mock
data, no upstream call.  The loop runs `i = days, …, 1`; iteration `j` (zero
based, so `i = days - j`) pushes the entry for `i` days ago and draws
`Math.random()` four times, in order temperature, humidity, wind, condition,
modelled as the stream values `rnd (4*j) … (4*j+3)`.  `location` is unused by
the source. -/
def WeatherService.getHistoricalWeather (location : String) (days : ℤ)
    (today : ℤ) (rnd : ℕ → ℚ) : List HistoricalData :=
  (List.range days.toNat).map (fun (j : ℕ) =>
    { date := today - (days - (j : ℤ))
      temperature := 20 + rnd (4 * j) * 15
      humidity := 40 + rnd (4 * j + 1) * 40
      windSpeed := rnd (4 * j + 2) * 20
      condition := condPick (rnd (4 * j + 3))
      description := "Historical weather data" })

/-- `weatherService.getWeatherAlerts(location)`: a mock that consults no
external API — it returns a single fixed alert when the `Math.random()` draw
exceeds 0.8, else no alerts. -/
def WeatherService.getWeatherAlerts (location : String) (randomAlert : ℚ)
    (now : ℤ) : List WeatherAlert :=
  if randomAlert > 0.8 then
    [{ id := "alert_001"
       title := "Heat Wave Warning"
       description := "Extremely high temperatures expected. Stay hydrated and avoid prolonged sun exposure."
       severity := "moderate"
       startTime := now
       endTime := now + 24 * 60 * 60 * 1000
       area := location }]
  else []

/-- Cache key of `getCurrentWeather`. -/
def currentKey (location : String) : String :=
  "weather:current:" ++ location

/-- Cache key of `getCurrentWeatherByCoords` (raw parsed floats interpolated). -/
def currentCoordsKey (latitude longitude : JsNum) : String :=
  "weather:coords:" ++ jsNumToString latitude ++ ":" ++ jsNumToString longitude

/-- Cache key of `getForecast`. -/
def forecastKey (location : String) : String :=
  "forecast:" ++ location

/-- Cache key of `getForecastByCoords`. -/
def forecastCoordsKey (latitude longitude : JsNum) : String :=
  "forecast:coords:" ++ jsNumToString latitude ++ ":" ++ jsNumToString longitude

/-- Cache key of `getHistoricalWeather` (the day count is interpolated). -/
def historyKey (location : String) (days : ℤ) : String :=
  "history:" ++ location ++ ":" ++ toString days

/-- `weatherController.getCurrentWeather`.  The whole body is inside
`try … catch`, and the catch rethrows `ApiError(500, 'Failed to fetch weather
data')`: a throwing `cacheService.get` aborts before the service call, a
throwing `cacheService.set` aborts after it (the fetched payload is never
sent), and a service failure is replaced by the same generic error. -/
def WeatherController.getCurrentWeather (env : Env) (location : String)
    (upstream : AxiosResult RawWeather) (rand : ℚ) : OpTrace Payload :=
  let cacheKey := currentKey location
  if env.getFault then
    { result := .error ⟨500, "Failed to fetch weather data"⟩
      cacheAfter := env.cache, written := none
      cacheReads := 1, serviceCalls := 0, httpCalls := 0 }
  else
    match cacheGet env.now env.cache cacheKey with
    | some cached =>
      { result := .ok cached, cacheAfter := env.cache, written := none
        cacheReads := 1, serviceCalls := 0, httpCalls := 0 }
    | none =>
      match WeatherService.getCurrentWeather upstream rand env.now with
      | .ok w =>
        if env.setFault then
          { result := .error ⟨500, "Failed to fetch weather data"⟩
            cacheAfter := env.cache, written := none
            cacheReads := 1, serviceCalls := 1, httpCalls := 1 }
        else
          { result := .ok (.weather w)
            cacheAfter := cacheSet env.now env.cache cacheKey (.weather w) 600
            written := some (cacheKey, .weather w, 600)
            cacheReads := 1, serviceCalls := 1, httpCalls := 1 }
      | .error _ =>
        { result := .error ⟨500, "Failed to fetch weather data"⟩
          cacheAfter := env.cache, written := none
          cacheReads := 1, serviceCalls := 1, httpCalls := 1 }

/-- `weatherController.getCurrentWeatherByCoords`: parses the path params with
`parseFloat` and proceeds like `getCurrentWeather` with the coords key. -/
def WeatherController.getCurrentWeatherByCoords (env : Env) (latS lonS : String)
    (upstream : AxiosResult RawWeather) (rand : ℚ) : OpTrace Payload :=
  let latitude := jsParseFloat latS
  let longitude := jsParseFloat lonS
  let cacheKey := currentCoordsKey latitude longitude
  if env.getFault then
    { result := .error ⟨500, "Failed to fetch weather data"⟩
      cacheAfter := env.cache, written := none
      cacheReads := 1, serviceCalls := 0, httpCalls := 0 }
  else
    match cacheGet env.now env.cache cacheKey with
    | some cached =>
      { result := .ok cached, cacheAfter := env.cache, written := none
        cacheReads := 1, serviceCalls := 0, httpCalls := 0 }
    | none =>
      match WeatherService.getCurrentWeatherByCoords latitude longitude upstream rand env.now with
      | .ok w =>
        if env.setFault then
          { result := .error ⟨500, "Failed to fetch weather data"⟩
            cacheAfter := env.cache, written := none
            cacheReads := 1, serviceCalls := 1, httpCalls := 1 }
        else
          { result := .ok (.weather w)
            cacheAfter := cacheSet env.now env.cache cacheKey (.weather w) 600
            written := some (cacheKey, .weather w, 600)
            cacheReads := 1, serviceCalls := 1, httpCalls := 1 }
      | .error _ =>
        { result := .error ⟨500, "Failed to fetch weather data"⟩
          cacheAfter := env.cache, written := none
          cacheReads := 1, serviceCalls := 1, httpCalls := 1 }

/-- `weatherController.getForecast` (TTL 1800, its own catch message). -/
def WeatherController.getForecast (env : Env) (location : String)
    (upstream : AxiosResult RawForecast) : OpTrace Payload :=
  let cacheKey := forecastKey location
  if env.getFault then
    { result := .error ⟨500, "Failed to fetch forecast data"⟩
      cacheAfter := env.cache, written := none
      cacheReads := 1, serviceCalls := 0, httpCalls := 0 }
  else
    match cacheGet env.now env.cache cacheKey with
    | some cached =>
      { result := .ok cached, cacheAfter := env.cache, written := none
        cacheReads := 1, serviceCalls := 0, httpCalls := 0 }
    | none =>
      match WeatherService.getForecast upstream with
      | .ok l =>
        if env.setFault then
          { result := .error ⟨500, "Failed to fetch forecast data"⟩
            cacheAfter := env.cache, written := none
            cacheReads := 1, serviceCalls := 1, httpCalls := 1 }
        else
          { result := .ok (.forecastL l)
            cacheAfter := cacheSet env.now env.cache cacheKey (.forecastL l) 1800
            written := some (cacheKey, .forecastL l, 1800)
            cacheReads := 1, serviceCalls := 1, httpCalls := 1 }
      | .error _ =>
        { result := .error ⟨500, "Failed to fetch forecast data"⟩
          cacheAfter := env.cache, written := none
          cacheReads := 1, serviceCalls := 1, httpCalls := 1 }

/-- `weatherController.getForecastByCoords`. -/
def WeatherController.getForecastByCoords (env : Env) (latS lonS : String)
    (upstream : AxiosResult RawForecast) : OpTrace Payload :=
  let latitude := jsParseFloat latS
  let longitude := jsParseFloat lonS
  let cacheKey := forecastCoordsKey latitude longitude
  if env.getFault then
    { result := .error ⟨500, "Failed to fetch forecast data"⟩
      cacheAfter := env.cache, written := none
      cacheReads := 1, serviceCalls := 0, httpCalls := 0 }
  else
    match cacheGet env.now env.cache cacheKey with
    | some cached =>
      { result := .ok cached, cacheAfter := env.cache, written := none
        cacheReads := 1, serviceCalls := 0, httpCalls := 0 }
    | none =>
      match WeatherService.getForecastByCoords latitude longitude upstream with
      | .ok l =>
        if env.setFault then
          { result := .error ⟨500, "Failed to fetch forecast data"⟩
            cacheAfter := env.cache, written := none
            cacheReads := 1, serviceCalls := 1, httpCalls := 1 }
        else
          { result := .ok (.forecastL l)
            cacheAfter := cacheSet env.now env.cache cacheKey (.forecastL l) 1800
            written := some (cacheKey, .forecastL l, 1800)
            cacheReads := 1, serviceCalls := 1, httpCalls := 1 }
      | .error _ =>
        { result := .error ⟨500, "Failed to fetch forecast data"⟩
          cacheAfter := env.cache, written := none
          cacheReads := 1, serviceCalls := 1, httpCalls := 1 }

/-- `weatherController.getHistoricalWeather` (TTL 3600).  The mock service
makes no HTTP call and cannot fail, so `httpCalls = 0` and the only failure
paths are the cache faults. -/
def WeatherController.getHistoricalWeather (env : Env) (location : String)
    (daysQuery : Option String) (today : ℤ) (rnd : ℕ → ℚ) : OpTrace Payload :=
  let days := parseIntOr7 daysQuery
  let cacheKey := historyKey location days
  if env.getFault then
    { result := .error ⟨500, "Failed to fetch historical weather data"⟩
      cacheAfter := env.cache, written := none
      cacheReads := 1, serviceCalls := 0, httpCalls := 0 }
  else
    match cacheGet env.now env.cache cacheKey with
    | some cached =>
      { result := .ok cached, cacheAfter := env.cache, written := none
        cacheReads := 1, serviceCalls := 0, httpCalls := 0 }
    | none =>
      let history := WeatherService.getHistoricalWeather location days today rnd
      if env.setFault then
        { result := .error ⟨500, "Failed to fetch historical weather data"⟩
          cacheAfter := env.cache, written := none
          cacheReads := 1, serviceCalls := 1, httpCalls := 0 }
      else
        { result := .ok (.historyL history)
          cacheAfter := cacheSet env.now env.cache cacheKey (.historyL history) 3600
          written := some (cacheKey, .historyL history, 3600)
          cacheReads := 1, serviceCalls := 1, httpCalls := 0 }

/-- `weatherController.getWeatherAlerts`: no cache read, no cache write, always
calls the (mock, HTTP-free) service. -/
def WeatherController.getWeatherAlerts (env : Env) (location : String)
    (randomAlert : ℚ) : OpTrace (List WeatherAlert) :=
  { result := .ok (WeatherService.getWeatherAlerts location randomAlert env.now)
    cacheAfter := env.cache, written := none
    cacheReads := 0, serviceCalls := 1, httpCalls := 0 }

/-- One cache-using logical request together with its environment-determined
collaborator outcomes (the upstream reply and the `Math.random()` draws).
Alerts requests are handled by `WeatherController.getWeatherAlerts` directly
since they never touch the cache. -/
inductive Request where
  | currentByName (location : String) (upstream : AxiosResult RawWeather) (rand : ℚ)
  | currentByCoords (latS lonS : String) (upstream : AxiosResult RawWeather) (rand : ℚ)
  | forecastByName (location : String) (upstream : AxiosResult RawForecast)
  | forecastByCoords (latS lonS : String) (upstream : AxiosResult RawForecast)
  | historical (location : String) (daysQuery : Option String) (today : ℤ) (rnd : ℕ → ℚ)

/-- The logical identity of a request: its kind plus its location-or-coordinates
and optional day-count parameter — nothing from the collaborators. -/
inductive RequestId where
  | currentByName (location : String)
  | currentByCoords (latS lonS : String)
  | forecastByName (location : String)
  | forecastByCoords (latS lonS : String)
  | historical (location : String) (daysQuery : Option String)
deriving DecidableEq, Repr

/-- Forget the collaborator outcomes of a request. -/
def Request.logicalId : Request → RequestId
  | .currentByName L _ _ => .currentByName L
  | .currentByCoords la lo _ _ => .currentByCoords la lo
  | .forecastByName L _ => .forecastByName L
  | .forecastByCoords la lo _ => .forecastByCoords la lo
  | .historical L dq _ _ => .historical L dq

/-- The cache key each controller method computes for a request. -/
def cacheKeyOf : Request → String
  | .currentByName L _ _ => currentKey L
  | .currentByCoords la lo _ _ => currentCoordsKey (jsParseFloat la) (jsParseFloat lo)
  | .forecastByName L _ => forecastKey L
  | .forecastByCoords la lo _ => forecastCoordsKey (jsParseFloat la) (jsParseFloat lo)
  | .historical L dq _ _ => historyKey L (parseIntOr7 dq)

/-- The kind-specific TTL each controller method passes to `cacheService.set`. -/
def ttlOf : Request → ℕ
  | .currentByName _ _ _ => 600
  | .currentByCoords _ _ _ _ => 600
  | .forecastByName _ _ => 1800
  | .forecastByCoords _ _ _ => 1800
  | .historical _ _ _ _ => 3600

/-- The message of the generic `ApiError` each controller method rethrows. -/
def errMsgOf : Request → String
  | .currentByName _ _ _ => "Failed to fetch weather data"
  | .currentByCoords _ _ _ _ => "Failed to fetch weather data"
  | .forecastByName _ _ => "Failed to fetch forecast data"
  | .forecastByCoords _ _ _ => "Failed to fetch forecast data"
  | .historical _ _ _ _ => "Failed to fetch historical weather data"

/-- What the weather-service call for a request returns (as a cacheable
payload); the historical mock never fails. -/
def upstreamOutcome (req : Request) (now : ℤ) : Except ApiError Payload :=
  match req with
  | .currentByName _ up r => (WeatherService.getCurrentWeather up r now).map .weather
  | .currentByCoords la lo up r =>
    (WeatherService.getCurrentWeatherByCoords (jsParseFloat la) (jsParseFloat lo) up r now).map
      .weather
  | .forecastByName _ up => (WeatherService.getForecast up).map .forecastL
  | .forecastByCoords la lo up =>
    (WeatherService.getForecastByCoords (jsParseFloat la) (jsParseFloat lo) up).map .forecastL
  | .historical L dq today rnd =>
    .ok (.historyL (WeatherService.getHistoricalWeather L (parseIntOr7 dq) today rnd))

/-- Dispatch a cache-using request to its controller method. -/
def WeatherController.handle (env : Env) : Request → OpTrace Payload
  | .currentByName L up r => WeatherController.getCurrentWeather env L up r
  | .currentByCoords la lo up r => WeatherController.getCurrentWeatherByCoords env la lo up r
  | .forecastByName L up => WeatherController.getForecast env L up
  | .forecastByCoords la lo up => WeatherController.getForecastByCoords env la lo up
  | .historical L dq today rnd => WeatherController.getHistoricalWeather env L dq today rnd

/-- Outcome of a routed request: rejected by the validation middleware (with
the collected validator messages) or handled by the controller. -/
inductive RouteResult (α : Type) where
  | invalid (msgs : List String)
  | handled (t : OpTrace α)

/-- `routes/weatherRoutes.ts` `/current/coords/:lat/:lon`: the only validators
are `param('lat').isFloat()` and `param('lon').isFloat()` — no range options —
so any float-syntax pair reaches the controller. -/
def weatherRoutes.currentByCoords (env : Env) (latS lonS : String)
    (upstream : AxiosResult RawWeather) (rand : ℚ) : RouteResult Payload :=
  if isFloatStr latS && isFloatStr lonS then
    .handled (WeatherController.getCurrentWeatherByCoords env latS lonS upstream rand)
  else
    .invalid ((if isFloatStr latS then [] else ["Invalid latitude"]) ++
      (if isFloatStr lonS then [] else ["Invalid longitude"]))

/-- An empty cache. -/
def emptyCache : CacheStore := fun _ => none

/-- A fault-free environment over an empty cache at instant 0. -/
def env0 : Env :=
  { cache := emptyCache, now := 0, getFault := false, setFault := false }

/-- A well-formed concrete upstream current-weather body (used as a witness
input). -/
def rawW0 : RawWeather :=
  { name := "Lahore"
    sys := some { country := "PK" }
    main := some { temp := 30, feels_like := 32, humidity := 50, pressure := 1000 }
    wind := some { speed := 5, deg := 90 }
    visibility := 10000
    weather := [{ main := "Clear", description := "clear sky", icon := "01d" }]
    coord := some { lat := 31, lon := 74 } }

/-- A malformed concrete upstream body: `data.sys` is missing, so
`transformWeatherData` throws. -/
def rawWBad : RawWeather :=
  { rawW0 with sys := none }

/-- C1: for every request kind that uses the cache (current-by-name,
current-by-coordinates, forecast-by-name, forecast-by-coordinates, historical),
if the cache holds a present, unexpired entry for the computed key (and the
cache read itself does not fault), the operation returns that cached payload
and performs no weather-service call, no upstream HTTP call and no cache
write, leaving the cache unchanged. -/
theorem c1_cache_hit_no_upstream (env : Env) (req : Request) (p : Payload)
    (hga : env.getFault = false)
    (hhit : cacheGet env.now env.cache (cacheKeyOf req) = some p) :
    (WeatherController.handle env req).result = .ok p ∧
    (WeatherController.handle env req).serviceCalls = 0 ∧
    (WeatherController.handle env req).httpCalls = 0 ∧
    (WeatherController.handle env req).written = none ∧
    (WeatherController.handle env req).cacheAfter = env.cache := by
  cases req <;>
    simp only [cacheKeyOf] at hhit <;>
    simp [WeatherController.handle, WeatherController.getCurrentWeather,
      WeatherController.getCurrentWeatherByCoords, WeatherController.getForecast,
      WeatherController.getForecastByCoords, WeatherController.getHistoricalWeather,
      hga, hhit]

/-- A concrete cached current-weather payload for the C1 witness. -/
def wLahore : WeatherData :=
  { location := "Lahore", country := "PK", temperature := 30, feelsLike := 32
    humidity := 50, pressure := 1000, windSpeed := 18, windDirection := 90
    visibility := 10, uvIndex := 5, condition := "clear", description := "clear sky"
    icon := "01d", timestamp := 0, coordinates := { lat := 31, lon := 74 } }

/-- A cache holding a fresh entry for `weather:current:Lahore` at instant 0. -/
def hitCache : CacheStore :=
  fun k => if k = currentKey "Lahore" then some (.weather wLahore, 0, 600) else none

/-- The fault-free environment over `hitCache`. -/
def hitEnv : Env :=
  { cache := hitCache, now := 0, getFault := false, setFault := false }

/-- Witness for C1 at a concrete hit. -/
theorem c1_cache_hit_no_upstream_witness :
    cacheGet hitEnv.now hitEnv.cache (cacheKeyOf (.currentByName "Lahore" .netErr 0)) =
      some (.weather wLahore) ∧
    (WeatherController.handle hitEnv (.currentByName "Lahore" .netErr 0)).result =
      .ok (.weather wLahore) ∧
    (WeatherController.handle hitEnv (.currentByName "Lahore" .netErr 0)).serviceCalls = 0 ∧
    (WeatherController.handle hitEnv (.currentByName "Lahore" .netErr 0)).httpCalls = 0 ∧
    (WeatherController.handle hitEnv (.currentByName "Lahore" .netErr 0)).written = none ∧
    (WeatherController.handle hitEnv (.currentByName "Lahore" .netErr 0)).cacheAfter =
      hitEnv.cache := by
  have hhit : cacheGet hitEnv.now hitEnv.cache
      (cacheKeyOf (.currentByName "Lahore" .netErr 0)) = some (.weather wLahore) := by
    simp [cacheKeyOf, cacheGet, hitEnv, hitCache, currentKey]
  exact ⟨hhit, c1_cache_hit_no_upstream hitEnv (.currentByName "Lahore" .netErr 0)
    (.weather wLahore) rfl hhit⟩

/-- The normalized payload `transformWeatherData` produces from `rawW0` with a
zero random draw at instant 0 (fields written as the source expressions). -/
def w0 : WeatherData :=
  { location := "Lahore", country := "PK", temperature := 30, feelsLike := 32
    humidity := 50, pressure := 1000, windSpeed := 5 * 3.6, windDirection := 90
    visibility := 10000 / 1000, uvIndex := Int.toNat ⌊(0 : ℚ) * 11⌋
    condition := "Clear".toLower, description := "clear sky", icon := "01d"
    timestamp := 0, coordinates := { lat := 31, lon := 74 } }

/-- An environment whose cache read throws. -/
def faultyGetEnv : Env :=
  { cache := emptyCache, now := 0, getFault := true, setFault := false }

/-- An environment whose cache write throws. -/
def faultySetEnv : Env :=
  { cache := emptyCache, now := 0, getFault := false, setFault := true }

/-- C2 counterexample: the upstream reply `rawW0` would normalize successfully,
yet with a throwing cache read `getCurrentWeather` makes no service call and
answers the generic 500 instead of the upstream result — a cache-read fault is
fatal, contradicting the claim. -/
theorem c2_counterexample :
    WeatherService.getCurrentWeather (.ok rawW0) 0 0 = .ok w0 ∧
    (WeatherController.getCurrentWeather faultyGetEnv "Lahore" (.ok rawW0) 0).serviceCalls = 0 ∧
    (WeatherController.getCurrentWeather faultyGetEnv "Lahore" (.ok rawW0) 0).result =
      .error ⟨500, "Failed to fetch weather data"⟩ ∧
    (WeatherController.getCurrentWeather faultyGetEnv "Lahore" (.ok rawW0) 0).result ≠
      .ok (.weather w0) := by
  refine ⟨rfl, rfl, rfl, ?_⟩
  simp [WeatherController.getCurrentWeather, faultyGetEnv]

/-- C2 amended: a cache-store failure IS fatal to the request.  On a cache-read
fault the controller catch answers its generic 500 without calling the service;
on a cache-write fault after a successful service call it likewise answers the
generic 500, never returning the already-fetched upstream result (the cache is
left unchanged in both cases). -/
theorem c2_cache_fault_is_fatal (env : Env) (req : Request) :
    (env.getFault = true →
      (WeatherController.handle env req).result = .error ⟨500, errMsgOf req⟩ ∧
      (WeatherController.handle env req).serviceCalls = 0 ∧
      (WeatherController.handle env req).cacheAfter = env.cache) ∧
    (env.getFault = false → env.setFault = true →
      cacheGet env.now env.cache (cacheKeyOf req) = none →
      ∀ p, upstreamOutcome req env.now = .ok p →
        (WeatherController.handle env req).result = .error ⟨500, errMsgOf req⟩ ∧
        (WeatherController.handle env req).serviceCalls = 1 ∧
        (WeatherController.handle env req).written = none ∧
        (WeatherController.handle env req).cacheAfter = env.cache) := by
  cases req with
  | currentByName L up r =>
    constructor
    · intro h
      simp [WeatherController.handle, WeatherController.getCurrentWeather, errMsgOf, h]
    · intro h1 h2 hmiss p hok
      simp only [cacheKeyOf] at hmiss
      cases hs : WeatherService.getCurrentWeather up r env.now with
      | ok w =>
        simp [WeatherController.handle, WeatherController.getCurrentWeather, errMsgOf,
          h1, h2, hmiss, hs]
      | error e =>
        simp [upstreamOutcome, hs, Except.map] at hok
  | currentByCoords la lo up r =>
    constructor
    · intro h
      simp [WeatherController.handle, WeatherController.getCurrentWeatherByCoords, errMsgOf, h]
    · intro h1 h2 hmiss p hok
      simp only [cacheKeyOf] at hmiss
      cases hs : WeatherService.getCurrentWeatherByCoords (jsParseFloat la) (jsParseFloat lo)
          up r env.now with
      | ok w =>
        simp [WeatherController.handle, WeatherController.getCurrentWeatherByCoords, errMsgOf,
          h1, h2, hmiss, hs]
      | error e =>
        simp [upstreamOutcome, hs, Except.map] at hok
  | forecastByName L up =>
    constructor
    · intro h
      simp [WeatherController.handle, WeatherController.getForecast, errMsgOf, h]
    · intro h1 h2 hmiss p hok
      simp only [cacheKeyOf] at hmiss
      cases hs : WeatherService.getForecast up with
      | ok l =>
        simp [WeatherController.handle, WeatherController.getForecast, errMsgOf,
          h1, h2, hmiss, hs]
      | error e =>
        simp [upstreamOutcome, hs, Except.map] at hok
  | forecastByCoords la lo up =>
    constructor
    · intro h
      simp [WeatherController.handle, WeatherController.getForecastByCoords, errMsgOf, h]
    · intro h1 h2 hmiss p hok
      simp only [cacheKeyOf] at hmiss
      cases hs : WeatherService.getForecastByCoords (jsParseFloat la) (jsParseFloat lo) up with
      | ok l =>
        simp [WeatherController.handle, WeatherController.getForecastByCoords, errMsgOf,
          h1, h2, hmiss, hs]
      | error e =>
        simp [upstreamOutcome, hs, Except.map] at hok
  | historical L dq today rnd =>
    constructor
    · intro h
      simp [WeatherController.handle, WeatherController.getHistoricalWeather, errMsgOf, h]
    · intro h1 h2 hmiss p hok
      simp only [cacheKeyOf] at hmiss
      simp [WeatherController.handle, WeatherController.getHistoricalWeather, errMsgOf,
        h1, h2, hmiss]

/-- Witness for the amended C2 at concrete faulting environments. -/
theorem c2_cache_fault_is_fatal_witness :
    ((WeatherController.handle faultyGetEnv (.currentByName "Lahore" (.ok rawW0) 0)).result =
        .error ⟨500, "Failed to fetch weather data"⟩ ∧
      (WeatherController.handle faultyGetEnv
        (.currentByName "Lahore" (.ok rawW0) 0)).serviceCalls = 0) ∧
    (cacheGet faultySetEnv.now faultySetEnv.cache
        (cacheKeyOf (.currentByName "Lahore" (.ok rawW0) 0)) = none ∧
      upstreamOutcome (.currentByName "Lahore" (.ok rawW0) 0) faultySetEnv.now =
        .ok (.weather w0) ∧
      (WeatherController.handle faultySetEnv (.currentByName "Lahore" (.ok rawW0) 0)).result =
        .error ⟨500, "Failed to fetch weather data"⟩ ∧
      (WeatherController.handle faultySetEnv
        (.currentByName "Lahore" (.ok rawW0) 0)).written = none) := by
  have h1 := (c2_cache_fault_is_fatal faultyGetEnv (.currentByName "Lahore" (.ok rawW0) 0)).1 rfl
  have h2 := (c2_cache_fault_is_fatal faultySetEnv (.currentByName "Lahore" (.ok rawW0) 0)).2
    rfl rfl rfl (.weather w0) rfl
  exact ⟨⟨h1.1, h1.2.1⟩, rfl, rfl, h2.1, h2.2.2.1⟩

/-- C3 counterexample: latitude 95 and longitude -200 are out of range, yet both
pass the route validators (`isFloat()` checks syntax only), the request is
handled, and — over an empty cache — it performs a cache read and a service
call instead of failing validation. -/
theorem c3_counterexample :
    isFloatStr "95" = true ∧ isFloatStr "-200" = true ∧
    weatherRoutes.currentByCoords env0 "95" "-200" .netErr 0 =
      .handled (WeatherController.getCurrentWeatherByCoords env0 "95" "-200" .netErr 0) ∧
    (WeatherController.getCurrentWeatherByCoords env0 "95" "-200" .netErr 0).cacheReads = 1 ∧
    (WeatherController.getCurrentWeatherByCoords env0 "95" "-200" .netErr 0).serviceCalls = 1 := by
  exact ⟨rfl, rfl, rfl, rfl, rfl⟩

/-- C3 amended: the coordinate route rejects exactly the parameters that are
not float syntax — those fail validation before any cache access or upstream
call (the request never reaches the controller) — while any float-syntax pair,
including out-of-range values such as latitude 95 or longitude -200, passes
validation, reaches the controller, and touches the cache (and, on a miss, the
upstream service): no range check exists. -/
theorem c3_no_range_validation (env : Env) (latS lonS : String)
    (upstream : AxiosResult RawWeather) (rand : ℚ) :
    ((isFloatStr latS && isFloatStr lonS) = false →
      ∃ msgs, weatherRoutes.currentByCoords env latS lonS upstream rand = .invalid msgs ∧
        msgs ≠ []) ∧
    ((isFloatStr latS && isFloatStr lonS) = true →
      weatherRoutes.currentByCoords env latS lonS upstream rand =
        .handled (WeatherController.getCurrentWeatherByCoords env latS lonS upstream rand) ∧
      (WeatherController.getCurrentWeatherByCoords env latS lonS upstream rand).cacheReads =
        1) := by
  constructor
  · intro h
    refine ⟨(if isFloatStr latS then [] else ["Invalid latitude"]) ++
      (if isFloatStr lonS then [] else ["Invalid longitude"]), ?_, ?_⟩
    · simp [weatherRoutes.currentByCoords, h]
    rcases Bool.and_eq_false_iff.mp h with hla | hlo
    · simp [hla]
    · simp [hlo]
  · intro h
    refine ⟨by simp [weatherRoutes.currentByCoords, h], ?_⟩
    by_cases hg : env.getFault
    · simp [WeatherController.getCurrentWeatherByCoords, hg]
    · simp only [WeatherController.getCurrentWeatherByCoords, Bool.not_eq_true] at *
      rw [if_neg (by simp [hg])]
      cases cacheGet env.now env.cache
          (currentCoordsKey (jsParseFloat latS) (jsParseFloat lonS)) with
      | some cached => rfl
      | none =>
        cases WeatherService.getCurrentWeatherByCoords (jsParseFloat latS) (jsParseFloat lonS)
            upstream rand env.now with
        | ok w =>
          by_cases hs : env.setFault
          · simp [hs]
          · simp [hs]
        | error e => rfl

/-- Witness for the amended C3: a non-numeric latitude is rejected with a
message, and the out-of-range pair (95, -200) is handled and read the cache. -/
theorem c3_no_range_validation_witness :
    ((isFloatStr "abc" && isFloatStr "-200") = false ∧
      ∃ msgs, weatherRoutes.currentByCoords env0 "abc" "-200" .netErr 0 = .invalid msgs ∧
        msgs ≠ []) ∧
    ((isFloatStr "95" && isFloatStr "-200") = true ∧
      weatherRoutes.currentByCoords env0 "95" "-200" .netErr 0 =
        .handled (WeatherController.getCurrentWeatherByCoords env0 "95" "-200" .netErr 0) ∧
      (WeatherController.getCurrentWeatherByCoords env0 "95" "-200" .netErr 0).cacheReads =
        1) := by
  refine ⟨⟨rfl, (c3_no_range_validation env0 "abc" "-200" .netErr 0).1 rfl⟩,
    rfl, (c3_no_range_validation env0 "95" "-200" .netErr 0).2 rfl⟩

/-- C4 counterexample: for "Atlantis" the service maps the upstream 404 to
`ApiError(404, 'Location not found')`, but the controller answer is the generic
`ApiError(500, 'Failed to fetch weather data')` — the NotFound outcome is
downgraded.  Moreover a malformed payload produces an error equal to the
transport-failure error, not a distinct DataIntegrity outcome. -/
theorem c4_counterexample :
    WeatherService.getCurrentWeather (.httpErr 404) 0 0 =
      .error ⟨404, "Location not found"⟩ ∧
    (WeatherController.getCurrentWeather env0 "Atlantis" (.httpErr 404) 0).result =
      .error ⟨500, "Failed to fetch weather data"⟩ ∧
    (WeatherController.getCurrentWeather env0 "Atlantis" (.httpErr 404) 0).result ≠
      .error ⟨404, "Location not found"⟩ ∧
    WeatherService.getCurrentWeather (.ok rawWBad) 0 0 =
      WeatherService.getCurrentWeather .netErr 0 0 := by
  refine ⟨rfl, rfl, ?_, rfl⟩
  intro h
  rw [show (WeatherController.getCurrentWeather env0 "Atlantis" (.httpErr 404) 0).result =
    .error ⟨500, "Failed to fetch weather data"⟩ from rfl] at h
  simp at h

/-- C4 amended: the service layer distinguishes an upstream 404 (mapped to
`ApiError(404, 'Location not found')`) from every other failure — timeouts,
transport errors, non-404 statuses AND malformed payloads all collapse into the
single `ApiError(500, 'Weather service unavailable')`, so there is no distinct
DataIntegrity outcome — and a successful transform is returned whole (never a
partial payload); the controller then catches every service failure and
answers the generic `ApiError(500, 'Failed to fetch weather data')`, so no
distinct typed outcome reaches the caller. -/
theorem c4_error_taxonomy (up : AxiosResult RawWeather) (rand : ℚ) (now : ℤ)
    (env : Env) (L : String) :
    WeatherService.getCurrentWeather (.httpErr 404) rand now =
      .error ⟨404, "Location not found"⟩ ∧
    (∀ s, s ≠ 404 → WeatherService.getCurrentWeather (.httpErr s) rand now =
      .error ⟨500, "Weather service unavailable"⟩) ∧
    WeatherService.getCurrentWeather .netErr rand now =
      .error ⟨500, "Weather service unavailable"⟩ ∧
    (∀ data, WeatherService.transformWeatherData data rand now = none →
      WeatherService.getCurrentWeather (.ok data) rand now =
        .error ⟨500, "Weather service unavailable"⟩) ∧
    (∀ data w, WeatherService.transformWeatherData data rand now = some w →
      WeatherService.getCurrentWeather (.ok data) rand now = .ok w) ∧
    (env.getFault = false → cacheGet env.now env.cache (currentKey L) = none →
      ∀ e, WeatherService.getCurrentWeather up rand env.now = .error e →
        (WeatherController.getCurrentWeather env L up rand).result =
          .error ⟨500, "Failed to fetch weather data"⟩) := by
  refine ⟨rfl, ?_, rfl, ?_, ?_, ?_⟩
  · intro s hs
    simp [WeatherService.getCurrentWeather, hs]
  · intro data hnone
    simp [WeatherService.getCurrentWeather, hnone]
  · intro data w hsome
    simp [WeatherService.getCurrentWeather, hsome]
  · intro hg hmiss e he
    simp [WeatherController.getCurrentWeather, hg, hmiss, he]

/-- Witness for the amended C4 at concrete inputs. -/
theorem c4_error_taxonomy_witness :
    WeatherService.getCurrentWeather (.httpErr 404) 0 0 =
      .error ⟨404, "Location not found"⟩ ∧
    WeatherService.getCurrentWeather (.httpErr 503) 0 0 =
      .error ⟨500, "Weather service unavailable"⟩ ∧
    WeatherService.transformWeatherData rawWBad 0 0 = none ∧
    WeatherService.getCurrentWeather (.ok rawWBad) 0 0 =
      .error ⟨500, "Weather service unavailable"⟩ ∧
    WeatherService.transformWeatherData rawW0 0 0 = some w0 ∧
    WeatherService.getCurrentWeather (.ok rawW0) 0 0 = .ok w0 ∧
    (WeatherController.getCurrentWeather env0 "Atlantis" (.httpErr 404) 0).result =
      .error ⟨500, "Failed to fetch weather data"⟩ := by
  have h := c4_error_taxonomy (.httpErr 404) 0 0 env0 "Atlantis"
  exact ⟨h.1, h.2.1 503 (by decide), rfl,
    h.2.2.2.1 rawWBad rfl, rfl, h.2.2.2.2.1 rawW0 w0 rfl,
    h.2.2.2.2.2 rfl rfl ⟨404, "Location not found"⟩ h.1⟩

/-- C5: on a cache miss followed by a successful service result, the controller
writes the normalized payload under the computed key with the kind-specific TTL
(600 s for current weather, 1800 s for forecast, 3600 s for historical) and
returns it; and alerts requests never touch the cache: every alerts request —
hence also each of two in immediate succession, since the cache is left
unchanged — makes its service call with zero cache reads and no write. -/
theorem c5_ttl_policy (env : Env) (req : Request) (p : Payload)
    (hg : env.getFault = false) (hsf : env.setFault = false)
    (hmiss : cacheGet env.now env.cache (cacheKeyOf req) = none)
    (hok : upstreamOutcome req env.now = .ok p) :
    (WeatherController.handle env req).result = .ok p ∧
    (WeatherController.handle env req).written = some (cacheKeyOf req, p, ttlOf req) ∧
    (WeatherController.handle env req).cacheAfter =
      cacheSet env.now env.cache (cacheKeyOf req) p (ttlOf req) ∧
    (∀ L r, (WeatherController.getWeatherAlerts env L r).cacheReads = 0 ∧
      (WeatherController.getWeatherAlerts env L r).written = none ∧
      (WeatherController.getWeatherAlerts env L r).serviceCalls = 1 ∧
      (WeatherController.getWeatherAlerts env L r).cacheAfter = env.cache) := by
  have halerts : ∀ L r, (WeatherController.getWeatherAlerts env L r).cacheReads = 0 ∧
      (WeatherController.getWeatherAlerts env L r).written = none ∧
      (WeatherController.getWeatherAlerts env L r).serviceCalls = 1 ∧
      (WeatherController.getWeatherAlerts env L r).cacheAfter = env.cache :=
    fun L r => ⟨rfl, rfl, rfl, rfl⟩
  cases req with
  | currentByName L up r =>
    simp only [cacheKeyOf] at hmiss ⊢
    cases hs : WeatherService.getCurrentWeather up r env.now with
    | ok w =>
      simp only [upstreamOutcome, hs, Except.map] at hok
      cases hok
      simp [WeatherController.handle, WeatherController.getCurrentWeather, ttlOf,
        hg, hsf, hmiss, hs, halerts]
    | error e => simp [upstreamOutcome, hs, Except.map] at hok
  | currentByCoords la lo up r =>
    simp only [cacheKeyOf] at hmiss ⊢
    cases hs : WeatherService.getCurrentWeatherByCoords (jsParseFloat la) (jsParseFloat lo)
        up r env.now with
    | ok w =>
      simp only [upstreamOutcome, hs, Except.map] at hok
      cases hok
      simp [WeatherController.handle, WeatherController.getCurrentWeatherByCoords, ttlOf,
        hg, hsf, hmiss, hs, halerts]
    | error e => simp [upstreamOutcome, hs, Except.map] at hok
  | forecastByName L up =>
    simp only [cacheKeyOf] at hmiss ⊢
    cases hs : WeatherService.getForecast up with
    | ok l =>
      simp only [upstreamOutcome, hs, Except.map] at hok
      cases hok
      simp [WeatherController.handle, WeatherController.getForecast, ttlOf,
        hg, hsf, hmiss, hs, halerts]
    | error e => simp [upstreamOutcome, hs, Except.map] at hok
  | forecastByCoords la lo up =>
    simp only [cacheKeyOf] at hmiss ⊢
    cases hs : WeatherService.getForecastByCoords (jsParseFloat la) (jsParseFloat lo) up with
    | ok l =>
      simp only [upstreamOutcome, hs, Except.map] at hok
      cases hok
      simp [WeatherController.handle, WeatherController.getForecastByCoords, ttlOf,
        hg, hsf, hmiss, hs, halerts]
    | error e => simp [upstreamOutcome, hs, Except.map] at hok
  | historical L dq today rnd =>
    simp only [cacheKeyOf] at hmiss ⊢
    simp only [upstreamOutcome, Except.ok.injEq] at hok
    cases hok
    simp [WeatherController.handle, WeatherController.getHistoricalWeather, ttlOf,
      hg, hsf, hmiss, halerts]

/-- Witness for C5: a fresh "Lahore" current-weather request over the empty
cache writes the normalized payload with TTL 600, and a concrete alerts request
does not touch the cache. -/
theorem c5_ttl_policy_witness :
    cacheGet env0.now env0.cache (cacheKeyOf (.currentByName "Lahore" (.ok rawW0) 0)) = none ∧
    upstreamOutcome (.currentByName "Lahore" (.ok rawW0) 0) env0.now = .ok (.weather w0) ∧
    (WeatherController.handle env0 (.currentByName "Lahore" (.ok rawW0) 0)).result =
      .ok (.weather w0) ∧
    (WeatherController.handle env0 (.currentByName "Lahore" (.ok rawW0) 0)).written =
      some (currentKey "Lahore", .weather w0, 600) ∧
    (WeatherController.getWeatherAlerts env0 "Lahore" 0).cacheReads = 0 ∧
    (WeatherController.getWeatherAlerts env0 "Lahore" 0).written = none ∧
    (WeatherController.getWeatherAlerts env0 "Lahore" 0).serviceCalls = 1 := by
  have h := c5_ttl_policy env0 (.currentByName "Lahore" (.ok rawW0) 0) (.weather w0)
    rfl rfl rfl rfl
  have ha := h.2.2.2 "Lahore" 0
  exact ⟨rfl, rfl, h.1, h.2.1, ha.1, ha.2.1, ha.2.2.1⟩

/-- C6: when the service call for a request fails (with the fetch methods this
is any upstream failure), the controller propagates a typed `ApiError` failure
and leaves the cache unchanged: no cache write occurs, so error responses are
never cached. -/
theorem c6_no_cache_write_on_failure (env : Env) (req : Request) (e : ApiError)
    (hg : env.getFault = false)
    (hmiss : cacheGet env.now env.cache (cacheKeyOf req) = none)
    (herr : upstreamOutcome req env.now = .error e) :
    (WeatherController.handle env req).result = .error ⟨500, errMsgOf req⟩ ∧
    (WeatherController.handle env req).written = none ∧
    (WeatherController.handle env req).cacheAfter = env.cache := by
  cases req with
  | currentByName L up r =>
    simp only [cacheKeyOf] at hmiss
    cases hs : WeatherService.getCurrentWeather up r env.now with
    | ok w => simp [upstreamOutcome, hs, Except.map] at herr
    | error e2 =>
      simp [WeatherController.handle, WeatherController.getCurrentWeather, errMsgOf,
        hg, hmiss, hs]
  | currentByCoords la lo up r =>
    simp only [cacheKeyOf] at hmiss
    cases hs : WeatherService.getCurrentWeatherByCoords (jsParseFloat la) (jsParseFloat lo)
        up r env.now with
    | ok w => simp [upstreamOutcome, hs, Except.map] at herr
    | error e2 =>
      simp [WeatherController.handle, WeatherController.getCurrentWeatherByCoords, errMsgOf,
        hg, hmiss, hs]
  | forecastByName L up =>
    simp only [cacheKeyOf] at hmiss
    cases hs : WeatherService.getForecast up with
    | ok l => simp [upstreamOutcome, hs, Except.map] at herr
    | error e2 =>
      simp [WeatherController.handle, WeatherController.getForecast, errMsgOf, hg, hmiss, hs]
  | forecastByCoords la lo up =>
    simp only [cacheKeyOf] at hmiss
    cases hs : WeatherService.getForecastByCoords (jsParseFloat la) (jsParseFloat lo) up with
    | ok l => simp [upstreamOutcome, hs, Except.map] at herr
    | error e2 =>
      simp [WeatherController.handle, WeatherController.getForecastByCoords, errMsgOf,
        hg, hmiss, hs]
  | historical L dq today rnd => simp [upstreamOutcome] at herr

/-- Witness for C6: the "Atlantis" not-found request fails and writes nothing. -/
theorem c6_no_cache_write_on_failure_witness :
    cacheGet env0.now env0.cache (cacheKeyOf (.currentByName "Atlantis" (.httpErr 404) 0)) =
      none ∧
    upstreamOutcome (.currentByName "Atlantis" (.httpErr 404) 0) env0.now =
      .error ⟨404, "Location not found"⟩ ∧
    (WeatherController.handle env0 (.currentByName "Atlantis" (.httpErr 404) 0)).result =
      .error ⟨500, "Failed to fetch weather data"⟩ ∧
    (WeatherController.handle env0 (.currentByName "Atlantis" (.httpErr 404) 0)).written =
      none ∧
    (WeatherController.handle env0 (.currentByName "Atlantis" (.httpErr 404) 0)).cacheAfter =
      env0.cache := by
  have h := c6_no_cache_write_on_failure env0 (.currentByName "Atlantis" (.httpErr 404) 0)
    ⟨404, "Location not found"⟩ rfl rfl rfl
  exact ⟨rfl, rfl, h.1, h.2.1, h.2.2⟩

/-- Left cancellation for string append. -/
theorem string_append_left_cancel {s t u : String} (h : s ++ t = s ++ u) : t = u := by
  have hd := congrArg String.data h
  simp only [String.data_append] at hd
  exact String.ext (List.append_cancel_left hd)

/-- Decimal renderings of the route-valid day counts (1..30, plus the default 7)
are pairwise distinct. -/
theorem dayCountRenderingsDistinct : ∀ d1 < 31, ∀ d2 < 31, d1 ≠ d2 →
    toString ((d1 : ℕ) : ℤ) ≠ toString ((d2 : ℕ) : ℤ) := by decide

/-- C7: the cache key is a deterministic function of the logical request —
its kind, its location-or-coordinate parameters and its optional day-count
query — and of nothing else (not the cache state, clock, upstream reply or
random draws, which `Request.logicalId` forgets); and for historical requests
the day count is interpolated into the key, so two historical requests for the
same location with distinct (route-valid, ≤ 30) day counts get distinct keys. -/
theorem c7_cache_key_deterministic (r1 r2 : Request) (L : String) (d1 d2 : ℕ)
    (hid : r1.logicalId = r2.logicalId)
    (hd1 : d1 ≤ 30) (hd2 : d2 ≤ 30) (hne : d1 ≠ d2) :
    cacheKeyOf r1 = cacheKeyOf r2 ∧
    historyKey L (d1 : ℤ) ≠ historyKey L (d2 : ℤ) := by
  constructor
  · cases r1 <;> cases r2 <;> simp_all [Request.logicalId, cacheKeyOf]
  · intro h
    have hts : toString ((d1 : ℕ) : ℤ) = toString ((d2 : ℕ) : ℤ) :=
      string_append_left_cancel (s := ("history:" ++ L) ++ ":")
        (by simpa [historyKey, String.append_assoc] using h)
    exact dayCountRenderingsDistinct d1 (by omega) d2 (by omega) hne hts

/-- Witness for C7: two "Lahore" current-weather requests that differ only in
their collaborator outcomes share a key, and the historical keys for day
counts 7 and 8 differ. -/
theorem c7_cache_key_deterministic_witness :
    (Request.currentByName "Lahore" .netErr 0).logicalId =
      (Request.currentByName "Lahore" (.ok rawW0) (1/2)).logicalId ∧
    cacheKeyOf (.currentByName "Lahore" .netErr 0) =
      cacheKeyOf (.currentByName "Lahore" (.ok rawW0) (1/2)) ∧
    historyKey "Lahore" ((7 : ℕ) : ℤ) ≠ historyKey "Lahore" ((8 : ℕ) : ℤ) := by
  have h := c7_cache_key_deterministic (.currentByName "Lahore" .netErr 0)
    (.currentByName "Lahore" (.ok rawW0) (1/2)) "Lahore" 7 8 rfl (by decide) (by decide)
    (by decide)
  exact ⟨rfl, h.1, h.2⟩

/-- On a draw in `[0, 1)` the condition pick lands in the source array. -/
theorem condPick_mem {r : ℚ} (h0 : 0 ≤ r) (h1 : r < 1) :
    condPick r ∈ (["clear", "clouds", "rain"] : List String) := by
  unfold condPick
  have hf0 : (0 : ℤ) ≤ ⌊r * 3⌋ := Int.floor_nonneg.mpr (by positivity)
  have hf3 : ⌊r * 3⌋ < 3 := by
    apply Int.floor_lt.mpr
    push_cast
    nlinarith
  have hcases : Int.toNat ⌊r * 3⌋ = 0 ∨ Int.toNat ⌊r * 3⌋ = 1 ∨ Int.toNat ⌊r * 3⌋ = 2 := by
    omega
  rcases hcases with h | h | h <;> rw [h] <;> simp

/-- C8 counterexample: the days parameter "-3" is not a positive integer, yet
`parseInt('-3') || 7` is -3, not 7 — the controller then generates an empty
history (0 entries, not 7). -/
theorem c8_counterexample :
    parseIntOr7 (some "-3") = -3 ∧ parseIntOr7 (some "-3") ≠ 7 ∧
    WeatherService.getHistoricalWeather "Lahore" (parseIntOr7 (some "-3")) 0 (fun _ => 0) =
      [] := by
  refine ⟨by decide, by decide, ?_⟩
  rw [show parseIntOr7 (some "-3") = -3 from by decide]
  rfl

/-- C8 amended: for every location and day count `days ≥ 1`, with every random
draw in `[0, 1)`, `getHistoricalWeather` returns exactly `days` entries, entry
`j` dated `today - days + j` (strictly chronological, oldest first, the last
one dated one day before the current date), each with temperature in
`[20, 35)`, humidity in `[40, 80)`, wind speed in `[0, 20)` and condition one
of clear / clouds / rain, and the controller makes no upstream HTTP call for
it; the `days` query parameter defaults to 7 only when it is absent, fails to
parse (`NaN`), or parses to 0 — any other parsed leading integer (e.g. "-3" →
-3, "3.9" → 3) is used as-is, route validation being what keeps those out. -/
theorem c8_historical_mock (env : Env) (location : String) (days today : ℤ)
    (rnd : ℕ → ℚ) (dq : Option String) (s : String)
    (hdays : 1 ≤ days) (hrnd : ∀ n, 0 ≤ rnd n ∧ rnd n < 1) :
    (WeatherService.getHistoricalWeather location days today rnd).length = days.toNat ∧
    (∀ j (hj : j < (WeatherService.getHistoricalWeather location days today rnd).length),
      ((WeatherService.getHistoricalWeather location days today rnd).get ⟨j, hj⟩).date =
        today - days + j) ∧
    List.Pairwise (fun a b => a.date < b.date)
      (WeatherService.getHistoricalWeather location days today rnd) ∧
    (∀ hlen : 0 < (WeatherService.getHistoricalWeather location days today rnd).length,
      ((WeatherService.getHistoricalWeather location days today rnd).get
        ⟨(WeatherService.getHistoricalWeather location days today rnd).length - 1,
          by omega⟩).date = today - 1) ∧
    (∀ e ∈ WeatherService.getHistoricalWeather location days today rnd,
      20 ≤ e.temperature ∧ e.temperature < 35 ∧
      40 ≤ e.humidity ∧ e.humidity < 80 ∧
      0 ≤ e.windSpeed ∧ e.windSpeed < 20 ∧
      e.condition ∈ (["clear", "clouds", "rain"] : List String) ∧
      e.description = "Historical weather data") ∧
    (WeatherController.getHistoricalWeather env location dq today rnd).httpCalls = 0 ∧
    parseIntOr7 none = 7 ∧
    (jsParseInt s = none → parseIntOr7 (some s) = 7) ∧
    (jsParseInt s = some 0 → parseIntOr7 (some s) = 7) ∧
    (∀ d, jsParseInt s = some d → d ≠ 0 → parseIntOr7 (some s) = d) := by
  have hlen : (WeatherService.getHistoricalWeather location days today rnd).length =
      days.toNat := by
    simp [WeatherService.getHistoricalWeather]
  have hget : ∀ j (hj : j < (WeatherService.getHistoricalWeather location days today
      rnd).length),
      ((WeatherService.getHistoricalWeather location days today rnd).get ⟨j, hj⟩).date =
        today - days + j := by
    intro j hj
    simp [WeatherService.getHistoricalWeather, List.get_map, List.get_range]
    ring
  refine ⟨hlen, hget, ?_, ?_, ?_, ?_, ?_, ?_, ?_, ?_⟩
  · unfold WeatherService.getHistoricalWeather
    refine (List.pairwise_map).mpr ?_
    refine List.Pairwise.imp ?_ (List.pairwise_lt_range _)
    intro a b hab
    simp only []
    omega
  · intro hl
    rw [hget _ (by omega)]
    rw [hlen] at hl ⊢
    omega
  · intro e he
    simp only [WeatherService.getHistoricalWeather, List.mem_map, List.mem_range] at he
    obtain ⟨j, _, rfl⟩ := he
    obtain ⟨ht0, ht1⟩ := hrnd (4 * j)
    obtain ⟨hh0, hh1⟩ := hrnd (4 * j + 1)
    obtain ⟨hw0, hw1⟩ := hrnd (4 * j + 2)
    obtain ⟨hc0, hc1⟩ := hrnd (4 * j + 3)
    dsimp only
    refine ⟨by nlinarith, by nlinarith, by nlinarith, by nlinarith, by nlinarith,
      by nlinarith, condPick_mem hc0 hc1, rfl⟩
  · by_cases hg : env.getFault
    · simp [WeatherController.getHistoricalWeather, hg]
    · simp only [WeatherController.getHistoricalWeather, Bool.not_eq_true] at *
      rw [if_neg (by simp [hg])]
      cases cacheGet env.now env.cache (historyKey location (parseIntOr7 dq)) with
      | some cached => rfl
      | none =>
        by_cases hsf : env.setFault
        · simp [hsf]
        · simp [hsf]
  · rfl
  · intro h
    simp [parseIntOr7, h]
  · intro h
    simp [parseIntOr7, h]
  · intro d h hd0
    simp [parseIntOr7, h, hd0]

/-- Witness for the amended C8 at days = 2 with the constant-zero stream. -/
theorem c8_historical_mock_witness :
    (1 : ℤ) ≤ 2 ∧
    (WeatherService.getHistoricalWeather "Lahore" 2 0 (fun _ => 0)).length = (2 : ℤ).toNat ∧
    (WeatherController.getHistoricalWeather env0 "Lahore" none 0 (fun _ => 0)).httpCalls =
      0 ∧
    parseIntOr7 none = 7 := by
  have h := c8_historical_mock env0 "Lahore" 2 0 (fun _ => 0) none "abc" (by decide)
    (fun n => ⟨le_refl 0, zero_lt_one⟩)
  exact ⟨by decide, h.1, h.2.2.2.2.2.1, h.2.2.2.2.2.2.1⟩

/-- The single mock alert the service can emit. -/
def heatWaveAlert (location : String) (now : ℤ) : WeatherAlert :=
  { id := "alert_001"
    title := "Heat Wave Warning"
    description := "Extremely high temperatures expected. Stay hydrated and avoid prolonged sun exposure."
    severity := "moderate"
    startTime := now
    endTime := now + 24 * 60 * 60 * 1000
    area := location }

/-- A draw of 1 exceeds the 0.8 alert threshold. -/
theorem one_exceeds_threshold : (1 : ℚ) > 0.8 := by norm_num

/-- A draw of 0 does not exceed the 0.8 alert threshold. -/
theorem zero_below_threshold : ¬ ((0 : ℚ) > 0.8) := by norm_num

/-- C9: `getWeatherAlerts` consults no external API (the controller trace shows
zero upstream HTTP calls) and returns at most one alert: exactly the fixed
Heat Wave Warning — severity "moderate", area the requested location, end time
24 hours (in ms) after its start — when the random draw exceeds 0.8, and the
empty list otherwise. -/
theorem c9_alerts_mock (env : Env) (location : String) (r : ℚ) :
    (WeatherService.getWeatherAlerts location r env.now).length ≤ 1 ∧
    (r > 0.8 → WeatherService.getWeatherAlerts location r env.now =
      [heatWaveAlert location env.now]) ∧
    (¬ r > 0.8 → WeatherService.getWeatherAlerts location r env.now = []) ∧
    (∀ a ∈ WeatherService.getWeatherAlerts location r env.now,
      a.title = "Heat Wave Warning" ∧ a.severity = "moderate" ∧ a.area = location ∧
      a.startTime = env.now ∧ a.endTime = a.startTime + 24 * 60 * 60 * 1000) ∧
    (WeatherController.getWeatherAlerts env location r).httpCalls = 0 ∧
    (WeatherController.getWeatherAlerts env location r).result =
      .ok (WeatherService.getWeatherAlerts location r env.now) := by
  by_cases hr : r > 0.8
  · refine ⟨?_, fun _ => ?_, fun h => absurd hr h, ?_, rfl, rfl⟩
    · simp [WeatherService.getWeatherAlerts, hr]
    · simp [WeatherService.getWeatherAlerts, hr, heatWaveAlert]
    · intro a ha
      simp [WeatherService.getWeatherAlerts, hr] at ha
      subst ha
      exact ⟨rfl, rfl, rfl, rfl, rfl⟩
  · refine ⟨?_, fun h => absurd h hr, fun _ => ?_, ?_, rfl, rfl⟩
    · simp [WeatherService.getWeatherAlerts, hr]
    · simp [WeatherService.getWeatherAlerts, hr]
    · intro a ha
      simp [WeatherService.getWeatherAlerts, hr] at ha

/-- Witness for C9: with a draw of 1 the single fixed alert is returned, with a
draw of 0 the empty list; neither request makes an upstream HTTP call. -/
theorem c9_alerts_mock_witness :
    (1 : ℚ) > 0.8 ∧
    WeatherService.getWeatherAlerts "Lahore" 1 env0.now = [heatWaveAlert "Lahore" env0.now] ∧
    ¬ ((0 : ℚ) > 0.8) ∧
    WeatherService.getWeatherAlerts "Lahore" 0 env0.now = [] ∧
    (WeatherController.getWeatherAlerts env0 "Lahore" 1).httpCalls = 0 := by
  have h1 := c9_alerts_mock env0 "Lahore" 1
  have h0 := c9_alerts_mock env0 "Lahore" 0
  exact ⟨one_exceeds_threshold, h1.2.1 one_exceeds_threshold, zero_below_threshold,
    h0.2.2.1 zero_below_threshold, h1.2.2.2.2.1⟩

/-- Every successful transform sets `uvIndex` to `Math.floor(rand * 11)`. -/
theorem transform_uvIndex {data : RawWeather} {r : ℚ} {now : ℤ} {w : WeatherData}
    (hw : WeatherService.transformWeatherData data r now = some w) :
    w.uvIndex = Int.toNat ⌊r * 11⌋ := by
  obtain ⟨name, sys, main, wind, vis, weather, coord⟩ := data
  cases sys <;> cases main <;> cases wind <;> cases coord <;> cases hh : weather.head? <;>
    simp only [WeatherService.transformWeatherData, hh] at hw <;>
    first
      | exact Option.noConfusion hw
      | (have h1 := Option.some.inj hw
         subst h1
         rfl)

/-- Two successful transforms of the same upstream body agree on every field
except possibly `uvIndex` and `timestamp`. -/
theorem transform_fields {data : RawWeather} {r1 r2 : ℚ} {n1 n2 : ℤ} {w1 w2 : WeatherData}
    (hw1 : WeatherService.transformWeatherData data r1 n1 = some w1)
    (hw2 : WeatherService.transformWeatherData data r2 n2 = some w2) :
    w1 = { w2 with uvIndex := w1.uvIndex, timestamp := w1.timestamp } := by
  obtain ⟨name, sys, main, wind, vis, weather, coord⟩ := data
  cases sys <;> cases main <;> cases wind <;> cases coord <;> cases hh : weather.head? <;>
    simp only [WeatherService.transformWeatherData, hh] at hw1 hw2 <;>
    first
      | exact Option.noConfusion hw1
      | (have h1 := Option.some.inj hw1
         have h2 := Option.some.inj hw2
         subst h1
         subst h2
         rfl)

/-- C10 counterexample: two runs of `transformWeatherData` on the same upstream
response and the same random draw, at clock instants 0 and 1, agree on
`uvIndex` yet produce different payloads — the `timestamp` field comes from the
clock, so it is NOT determined by the upstream response. -/
theorem c10_counterexample :
    (WeatherService.transformWeatherData rawW0 0 0).map WeatherData.uvIndex =
      (WeatherService.transformWeatherData rawW0 0 1).map WeatherData.uvIndex ∧
    WeatherService.transformWeatherData rawW0 0 0 ≠
      WeatherService.transformWeatherData rawW0 0 1 := by
  refine ⟨rfl, ?_⟩
  intro h
  have ht := congrArg (Option.map WeatherData.timestamp) h
  rw [show (WeatherService.transformWeatherData rawW0 0 0).map WeatherData.timestamp =
    some 0 from rfl] at ht
  rw [show (WeatherService.transformWeatherData rawW0 0 1).map WeatherData.timestamp =
    some 1 from rfl] at ht
  simp at ht

/-- C10 amended: `uvIndex` is `Math.floor(rand * 11)` for the request's own
random draw — an integer in 0..10 independent of the upstream response — so
normalization is not a deterministic function of the upstream data (two runs
with draws 0 and 1/2 differ in `uvIndex`); all other fields EXCEPT `timestamp`
(which is read from the clock at transform time) are determined by the
upstream response. -/
theorem c10_uv_nondeterminism (data : RawWeather) (r : ℚ) (now : ℤ) (w : WeatherData)
    (r1 r2 : ℚ) (n1 n2 : ℤ) (w1 w2 : WeatherData)
    (h0 : 0 ≤ r) (h1 : r < 1) :
    (WeatherService.transformWeatherData data r now = some w →
      w.uvIndex = Int.toNat ⌊r * 11⌋ ∧ w.uvIndex ≤ 10) ∧
    (WeatherService.transformWeatherData rawW0 0 0).map WeatherData.uvIndex ≠
      (WeatherService.transformWeatherData rawW0 (1/2) 0).map WeatherData.uvIndex ∧
    (WeatherService.transformWeatherData data r1 n1 = some w1 →
      WeatherService.transformWeatherData data r2 n2 = some w2 →
      w1 = { w2 with uvIndex := w1.uvIndex, timestamp := w1.timestamp }) := by
  refine ⟨?_, ?_, fun hw1 hw2 => transform_fields hw1 hw2⟩
  · intro hw
    have huv := transform_uvIndex hw
    have hflt : ⌊r * 11⌋ < 11 := by
      apply Int.floor_lt.mpr
      push_cast
      nlinarith
    exact ⟨huv, by omega⟩
  · rw [show (WeatherService.transformWeatherData rawW0 0 0).map WeatherData.uvIndex =
      some (Int.toNat ⌊(0 : ℚ) * 11⌋) from rfl]
    rw [show (WeatherService.transformWeatherData rawW0 (1/2) 0).map WeatherData.uvIndex =
      some (Int.toNat ⌊(1/2 : ℚ) * 11⌋) from rfl]
    have hz : ⌊(0 : ℚ) * 11⌋ = 0 := by simp
    have hh : ⌊(1/2 : ℚ) * 11⌋ = 5 := by
      apply Int.floor_eq_iff.mpr
      constructor <;> norm_num
    rw [hz, hh]
    simp

/-- Witness for the amended C10 at the concrete body `rawW0` with draw 0. -/
theorem c10_uv_nondeterminism_witness :
    (0 : ℚ) ≤ 0 ∧ (0 : ℚ) < 1 ∧
    WeatherService.transformWeatherData rawW0 0 0 = some w0 ∧
    w0.uvIndex = Int.toNat ⌊(0 : ℚ) * 11⌋ ∧ w0.uvIndex ≤ 10 ∧
    (WeatherService.transformWeatherData rawW0 0 0).map WeatherData.uvIndex ≠
      (WeatherService.transformWeatherData rawW0 (1/2) 0).map WeatherData.uvIndex ∧
    w0 = { w0 with uvIndex := w0.uvIndex, timestamp := w0.timestamp } := by
  have h := c10_uv_nondeterminism rawW0 0 0 w0 0 0 0 0 w0 w0 (le_refl 0) zero_lt_one
  exact ⟨le_refl 0, zero_lt_one, rfl, (h.1 rfl).1, (h.1 rfl).2, h.2.1, h.2.2 rfl rfl⟩
